import Mathlib

/-!
Shallow embedding of src/app/jules-scratch/verification/verify_app.py.

The script body is:

    from playwright.sync_api import sync_playwright

    with sync_playwright() as p:
        browser = p.chromium.launch()
        page = browser.new_page()
        page.goto("http://localhost:5173/src")
        page.screenshot(path="app/jules-scratch/verification/verification.png")
        browser.close()

Every statement is a single call into the external automation library.  We
model a run of the script as a function of the library responses: for each
call the environment records whether that call would succeed or raise.  A
raising call terminates the body (Python skips the remaining statements of
the with-block and propagates the exception), and with no try/except in the
script the exception reaches the interpreter, which exits with status 1.
-/

namespace VerifyApp

/-- One call into the automation library, carrying the arguments exactly as
the script passes them.  `launch` carries the engine name and the list of
explicit options (the script passes none); `goto` carries the url and the
explicit wait condition (the script passes none, so the library default
applies); `screenshot` carries the path keyword argument. -/
inductive LibCall where
  | launch (engine : String) (options : List (String × String))
  | newPage
  | goto (url : String) (waitUntil : Option String)
  | screenshot (path : String)
  | close
  deriving DecidableEq, Repr

/-- The url literal passed to page.goto on line 6 of the script. -/
def targetUrl : String := "http://localhost:5173/src"

/-- The path literal passed to page.screenshot on line 7 of the script. -/
def screenshotPath : String := "app/jules-scratch/verification/verification.png"

/-- The five library calls of the script body, in source order. -/
def fullTrace : List LibCall :=
  [LibCall.launch "chromium" [], LibCall.newPage,
   LibCall.goto targetUrl none, LibCall.screenshot screenshotPath,
   LibCall.close]

/-- Library responses for one run: for each call the script can make, whether
that call succeeds or raises. -/
structure LibEnv where
  launchOk : Bool
  newPageOk : Bool
  gotoOk : Bool
  screenshotOk : Bool
  closeOk : Bool
  deriving DecidableEq, Repr

/-- All five calls succeed. -/
def LibEnv.allOk (env : LibEnv) : Bool :=
  env.launchOk && env.newPageOk && env.gotoOk && env.screenshotOk && env.closeOk

/-- Number of statements of the body that are executed (the raising statement
included): the index of the first failing call plus one, or 5 when all
succeed. -/
def stepsReached (env : LibEnv) : Nat :=
  if env.launchOk = false then 1
  else if env.newPageOk = false then 2
  else if env.gotoOk = false then 3
  else if env.screenshotOk = false then 4
  else 5

/-- Observable outcome of running the with-block body: the library calls
issued in order (a raising call is still issued), whether an exception
propagates out of the body, the image files written, whether a browser
process was started, and whether the script itself closed it via the
browser.close() statement. -/
structure ScriptRun where
  calls : List LibCall
  raised : Bool
  filesWritten : List String
  browserLaunched : Bool
  scriptClosedBrowser : Bool
  deriving DecidableEq, Repr

/-- The with-block body, statement by statement.  Python semantics: a raising
statement ends the body; the remaining statements are skipped and the
exception propagates. -/
def runBody (env : LibEnv) : ScriptRun :=
  -- browser = p.chromium.launch()
  if env.launchOk = false then
    { calls := [LibCall.launch "chromium" []], raised := true,
      filesWritten := [], browserLaunched := false,
      scriptClosedBrowser := false }
  -- page = browser.new_page()
  else if env.newPageOk = false then
    { calls := [LibCall.launch "chromium" [], LibCall.newPage],
      raised := true, filesWritten := [], browserLaunched := true,
      scriptClosedBrowser := false }
  -- page.goto("http://localhost:5173/src")
  else if env.gotoOk = false then
    { calls := [LibCall.launch "chromium" [], LibCall.newPage,
                LibCall.goto targetUrl none],
      raised := true, filesWritten := [], browserLaunched := true,
      scriptClosedBrowser := false }
  -- page.screenshot(path="app/jules-scratch/verification/verification.png")
  else if env.screenshotOk = false then
    { calls := [LibCall.launch "chromium" [], LibCall.newPage,
                LibCall.goto targetUrl none,
                LibCall.screenshot screenshotPath],
      raised := true, filesWritten := [], browserLaunched := true,
      scriptClosedBrowser := false }
  -- browser.close()
  else if env.closeOk = false then
    { calls := fullTrace, raised := true,
      filesWritten := [screenshotPath], browserLaunched := true,
      scriptClosedBrowser := false }
  else
    { calls := fullTrace, raised := false,
      filesWritten := [screenshotPath], browserLaunched := true,
      scriptClosedBrowser := true }

/-- Modelled from the spec: the automation library (playwright) is external
to this repository, so its context-manager behavior is not in src/.  Spec
section 5 states that cleanup on abnormal exit is left to the automation
library exit/context-manager semantics, and section 8 that the browser
process is not left running after either path to the extent the library
guarantees this: the with-statement exit handler, which Python runs on both
the normal and the exceptional path, stops the playwright context and with
it every browser it launched. -/
def contextExitReleasesBrowser : Bool := true

/-- Whether a browser process is still running once the script has
terminated: one was launched, the script did not close it, and the
context-manager exit (which runs on both paths) did not release it. -/
def browserRunningAfter (env : LibEnv) : Bool :=
  (runBody env).browserLaunched && !(runBody env).scriptClosedBrowser
    && !contextExitReleasesBrowser

/-- Process exit status: 1 when an exception propagates out of the module
body (Python default for an uncaught exception), 0 otherwise. -/
def exitStatus (env : LibEnv) : Nat :=
  if (runBody env).raised then 1 else 0

/-- The script as invoked by the interpreter.  The source never reads
sys.argv, os.environ or any configuration file, so the command line and the
process environment are dead inputs: the run is a function of the library
responses alone.  We make the unused inputs explicit so that independence
from them can be stated. -/
def runScript (_argv : List String) (_osEnv : String → Option String)
    (env : LibEnv) : ScriptRun :=
  runBody env

/-- Recognizer for screenshot calls. -/
def isScreenshot : LibCall → Bool
  | LibCall.screenshot _ => true
  | _ => false

/-- Recognizer for goto calls. -/
def isGoto : LibCall → Bool
  | LibCall.goto _ _ => true
  | _ => false

/-- Recognizer for launch calls. -/
def isLaunch : LibCall → Bool
  | LibCall.launch _ _ => true
  | _ => false

/-- The environment in which every library call succeeds. -/
def allOkEnv : LibEnv := ⟨true, true, true, true, true⟩

/-- C1 counterexample: on the success path the script issues five external
library calls (launch, new_page, goto, screenshot, close), not the four the
claim reports. -/
theorem C1_four_calls_counterexample :
    (runBody allOkEnv).calls.length ≠ 4 := by decide

/-- C1 (amended): the observable behavior is a linear sequence of single
external-library calls performed in order — launch, new_page, goto,
screenshot, close — with no branching, no retry and no validation between
the calls: in every environment the issued calls are exactly the first
stepsReached statements of the fixed five-call sequence, and that sequence
has five calls, not four. -/
theorem C1_linear_sequence (env : LibEnv) :
    (runBody env).calls = fullTrace.take (stepsReached env) ∧
      fullTrace = [LibCall.launch "chromium" [], LibCall.newPage,
        LibCall.goto targetUrl none, LibCall.screenshot screenshotPath,
        LibCall.close] ∧
      fullTrace.length = 5 := by
  obtain ⟨a, b, c, d, e⟩ := env
  cases a <;> cases b <;> cases c <;> cases d <;> cases e <;> decide

/-- C2: when every call succeeds the run writes exactly one file, at the
fixed path; in every environment any screenshot call that is issued carries
that same fixed path constant, never a computed one. -/
theorem C2_single_fixed_output (env : LibEnv) :
    (env.allOk = true →
      (runBody env).filesWritten = [screenshotPath] ∧
        (runBody env).filesWritten.length = 1) ∧
      (runBody env).calls.filter isScreenshot =
        (if env.launchOk && env.newPageOk && env.gotoOk then
          [LibCall.screenshot screenshotPath] else []) ∧
      screenshotPath = "app/jules-scratch/verification/verification.png" := by
  obtain ⟨a, b, c, d, e⟩ := env
  cases a <;> cases b <;> cases c <;> cases d <;> cases e <;> decide

/-- C2 witness: in the all-success environment the run writes exactly the
fixed file. -/
theorem C2_single_fixed_output_witness :
    allOkEnv.allOk = true ∧ (runBody allOkEnv).filesWritten = [screenshotPath] :=
  ⟨by decide, ((C2_single_fixed_output allOkEnv).1 (by decide)).1⟩

/-- C3: whenever the navigation call would raise, the process exits with a
non-zero status, writes no output file, and never issues the screenshot
call. -/
theorem C3_goto_failure_no_output (env : LibEnv) (h : env.gotoOk = false) :
    exitStatus env ≠ 0 ∧ (runBody env).filesWritten = [] ∧
      (runBody env).calls.countP isScreenshot = 0 := by
  obtain ⟨a, b, c, d, e⟩ := env
  cases h
  cases a <;> cases b <;> cases d <;> cases e <;> decide

/-- C3 witness: with launch and new_page succeeding and goto raising, the
exit status is non-zero and no file is written. -/
theorem C3_goto_failure_no_output_witness :
    (⟨true, true, false, true, true⟩ : LibEnv).gotoOk = false ∧
      exitStatus ⟨true, true, false, true, true⟩ ≠ 0 ∧
      (runBody ⟨true, true, false, true, true⟩).filesWritten = [] :=
  ⟨rfl, (C3_goto_failure_no_output ⟨true, true, false, true, true⟩ rfl).1,
    (C3_goto_failure_no_output ⟨true, true, false, true, true⟩ rfl).2.1⟩

/-- C4: any library-call failure propagates unhandled: the body raises, the
process exits with status 1, the issued calls stop at the failing statement
(no subsequent step of the sequence is executed), and no call is ever
retried (the issued calls are duplicate-free). -/
theorem C4_failure_propagates (env : LibEnv) (h : env.allOk = false) :
    (runBody env).raised = true ∧ exitStatus env = 1 ∧
      (runBody env).calls = fullTrace.take (stepsReached env) ∧
      (runBody env).calls.Nodup := by
  obtain ⟨a, b, c, d, e⟩ := env
  cases a <;> cases b <;> cases c <;> cases d <;> cases e <;>
    first
      | exact absurd h (by decide)
      | decide

/-- C4 witness: when the launch call fails the body raises and only the
launch call was issued. -/
theorem C4_failure_propagates_witness :
    (⟨false, true, true, true, true⟩ : LibEnv).allOk = false ∧
      (runBody ⟨false, true, true, true, true⟩).raised = true ∧
      exitStatus ⟨false, true, true, true, true⟩ = 1 :=
  ⟨rfl, (C4_failure_propagates ⟨false, true, true, true, true⟩ rfl).1,
    (C4_failure_propagates ⟨false, true, true, true, true⟩ rfl).2.1⟩

/-- C5: after the script terminates — on the success path and on every
failure path — the browser process is not left running: either the script
closed it or the context-manager exit, which runs on both paths, released
it. -/
theorem C5_browser_not_left_running (env : LibEnv) :
    browserRunningAfter env = false := by
  simp [browserRunningAfter, contextExitReleasesBrowser]

/-- C6: the browser.close() statement of the script runs only on the normal
path: the close call is issued exactly when launch, new_page, goto and
screenshot all succeed, and whenever the body raises the script has not
closed the browser itself. -/
theorem C6_close_only_on_normal_path (env : LibEnv) :
    (LibCall.close ∈ (runBody env).calls ↔
      env.launchOk = true ∧ env.newPageOk = true ∧ env.gotoOk = true ∧
        env.screenshotOk = true) ∧
      ((runBody env).raised = true → (runBody env).scriptClosedBrowser = false) := by
  obtain ⟨a, b, c, d, e⟩ := env
  cases a <;> cases b <;> cases c <;> cases d <;> cases e <;> decide

/-- C6 witness: when goto raises, the close call is never issued. -/
theorem C6_close_only_on_normal_path_witness :
    LibCall.close ∉ (runBody ⟨true, true, false, true, true⟩).calls :=
  fun hmem =>
    absurd ((C6_close_only_on_normal_path ⟨true, true, false, true, true⟩).1.mp
        hmem).2.2.1 (by decide)

/-- C7: every goto call the script ever issues targets the fixed url
"http://localhost:5173/src" with no explicit wait condition (the library
default applies): the goto calls of any run are exactly one such call when
navigation is reached and none otherwise. -/
theorem C7_fixed_url (env : LibEnv) :
    (runBody env).calls.filter isGoto =
      (if env.launchOk && env.newPageOk then
        [LibCall.goto targetUrl none] else []) ∧
      targetUrl = "http://localhost:5173/src" := by
  obtain ⟨a, b, c, d, e⟩ := env
  cases a <;> cases b <;> cases c <;> cases d <;> cases e <;> decide

/-- C8: the launch call is issued first in every run, on the chromium
engine with an empty option list, so every launch option takes the library
default. -/
theorem C8_default_launch (env : LibEnv) :
    (runBody env).calls.filter isLaunch = [LibCall.launch "chromium" []] ∧
      (runBody env).calls.head? = some (LibCall.launch "chromium" []) := by
  obtain ⟨a, b, c, d, e⟩ := env
  cases a <;> cases b <;> cases c <;> cases d <;> cases e <;> decide

/-- C9: the script reads no command-line arguments, no environment
variables and no configuration: two executions with arbitrary different
command lines and process environments but the same library responses are
identical runs, and on the success path the issued call sequence is the
fixed five-call constant. -/
theorem C9_deterministic :
    (∀ (argv₁ : List String) (osEnv₁ : String → Option String)
        (argv₂ : List String) (osEnv₂ : String → Option String)
        (env : LibEnv),
      runScript argv₁ osEnv₁ env = runScript argv₂ osEnv₂ env) ∧
      (runBody allOkEnv).calls = fullTrace :=
  ⟨fun _ _ _ _ _ => rfl, by decide⟩

/-- C10: on every path the screenshot call is issued at most once and at
most one output file is written. -/
theorem C10_screenshot_at_most_once (env : LibEnv) :
    (runBody env).calls.countP isScreenshot ≤ 1 ∧
      (runBody env).filesWritten.length ≤ 1 := by
  obtain ⟨a, b, c, d, e⟩ := env
  cases a <;> cases b <;> cases c <;> cases d <;> cases e <;> decide

end VerifyApp
